import Mathlib

/-
Shallow embedding of skycloudd/treeeee (src/main.rs), a tree-like
directory lister.  The program's whole behaviour is the `main` function:
it builds a filesystem walker, folds the walker's events into a ptree
`TreeBuilder` while tracking nesting depth and three counters, prints the
tree, and prints a summary line.

The embedding models the walk loop as a step function over an explicit
state.  Filesystem effects produced by the external `ignore` walker are
modelled as an input list of events (`Except String DirEntry`), matching
the `Result<DirEntry, Error>` items the walker iterator yields; the
`read_link` system call's outcome for an entry is carried in the entry
(`Except String String`, error message or target path).  ANSI colouring
by owo_colors is modelled by explicit escape-sequence wrappers.
-/

set_option autoImplicit false

namespace Treeeee

/-- The `FileType` enum of main.rs (lines 145-151). -/
inductive FileType where
  | directory
  | file
  | symlink
  | other
deriving DecidableEq, Repr

/-- Model of `std::fs::FileType`: the three predicates the `From` impl
(main.rs lines 153-165) queries. -/
structure FsFileType where
  is_dir : Bool
  is_file : Bool
  is_symlink : Bool
deriving DecidableEq, Repr

/-- The `From<std::fs::FileType> for FileType` impl (main.rs lines 153-165):
directory if `is_dir`, else file if `is_file`, else symlink if `is_symlink`,
else other. -/
def fileTypeFrom (ft : FsFileType) : FileType :=
  if ft.is_dir then FileType.directory
  else if ft.is_file then FileType.file
  else if ft.is_symlink then FileType.symlink
  else FileType.other

/-- A successfully yielded walker entry: its reported depth
(`entry.depth()`), its file type (`entry.file_type()`, `none` when the
type cannot be determined), its file name after `to_string_lossy`, and
the outcome of `entry.path().read_link()` (only consulted for symlinks):
`Except.ok target` or `Except.error message`. -/
structure DirEntry where
  depth : Nat
  file_type : Option FsFileType
  file_name : String
  read_link : Except String String
deriving Repr

/-- One item of the walker iterator: `Ok(entry)` or `Err(err)`
(the error rendered to its message string). -/
abbrev WalkEvent := Except String DirEntry

/-- One operation on the ptree `TreeBuilder`, recorded in order. -/
inductive TreeOp where
  | beginChild (label : String)
  | endChild
  | addEmptyChild (label : String)
deriving DecidableEq, Repr

/-- The mutable state of `main`'s walk loop (main.rs lines 47-53):
the tree builder (root label plus the ordered list of operations applied
to it), `current_depth`, the three counters, and the lines printed to
standard error by `eprintln!`. -/
@[ext]
structure WalkState where
  root : String
  treeOps : List TreeOp
  current_depth : Nat
  files_count : Nat
  dirs_count : Nat
  symlink_count : Nat
  stderrLines : List String
deriving Repr

/-- State just after `TreeBuilder::new(args.dir.to_string())` and the
counter initialisations (main.rs lines 47-53). -/
def initState (dir : String) : WalkState :=
  { root := dir
    treeOps := []
    current_depth := 1
    files_count := 0
    dirs_count := 0
    symlink_count := 0
    stderrLines := [] }

/-- Model of an owo_colors foreground-coloured fragment: the ANSI
foreground escape for the given colour code, the text, then the reset
sequence. -/
def colorFg (code : String) (s : String) : String :=
  "\x1b[" ++ code ++ "m" ++ s ++ "\x1b[0m"

/-- Model of `.green()` (ANSI foreground code 32). -/
def greenStr (s : String) : String := colorFg "32" s

/-- Model of `.blue()` (ANSI foreground code 34). -/
def blueStr (s : String) : String := colorFg "34" s

/-- Model of `.cyan()` (ANSI foreground code 36). -/
def cyanStr (s : String) : String := colorFg "36" s

/-- Model of `.red()` (ANSI foreground code 31). -/
def redStr (s : String) : String := colorFg "31" s

/-- Depth bookkeeping of main.rs lines 60-66: while the entry's depth is
below `current_depth`, `end_child` is called `current_depth - entry_depth`
times and `current_depth` is set to the entry's depth. -/
def closeLevels (entry_depth : Nat) (st : WalkState) : WalkState :=
  if entry_depth < st.current_depth then
    { st with
        treeOps := st.treeOps ++ List.replicate (st.current_depth - entry_depth) TreeOp.endChild
        current_depth := entry_depth }
  else
    st

/-- The `match file_type` dispatch of main.rs lines 74-112, applied after
depth bookkeeping.  For a symlink, `format!` first evaluates
`entry.path().read_link()`; on `Err` the loop `continue`s (after the
optional `eprintln!`) before `add_empty_child` and the counter updates
run. -/
def processType (ignore_errors : Bool) (e : DirEntry) (ft : FileType)
    (st : WalkState) : WalkState :=
  match ft with
  | FileType.directory =>
    { st with
        treeOps := st.treeOps ++ [TreeOp.beginChild (greenStr e.file_name ++ "/")]
        current_depth := st.current_depth + 1
        dirs_count := st.dirs_count + 1 }
  | FileType.file =>
    { st with
        treeOps := st.treeOps ++ [TreeOp.addEmptyChild e.file_name]
        files_count := st.files_count + 1 }
  | FileType.symlink =>
    match e.read_link with
    | Except.ok target =>
      { st with
          treeOps := st.treeOps ++
            [TreeOp.addEmptyChild (blueStr e.file_name ++ " -> " ++ cyanStr target)]
          files_count := st.files_count + 1
          symlink_count := st.symlink_count + 1 }
    | Except.error err =>
      if ignore_errors then st
      else { st with stderrLines := st.stderrLines ++ [err] }
  | FileType.other =>
    { st with
        treeOps := st.treeOps ++ [TreeOp.addEmptyChild (redStr e.file_name)]
        files_count := st.files_count + 1 }

/-- Processing of one `Ok(entry)` item (main.rs lines 57-115): depth
bookkeeping, then dispatch on `entry.file_type()`; a `None` file type
means `continue`. -/
def stepOk (ignore_errors : Bool) (e : DirEntry) (st : WalkState) : WalkState :=
  let st := closeLevels e.depth st
  match e.file_type with
  | some ft => processType ignore_errors e (fileTypeFrom ft) st
  | none => st

/-- Processing of one walker item (main.rs lines 55-123): an `Err(err)`
item only prints the error to standard error unless `ignore_errors`. -/
def step (ignore_errors : Bool) (ev : WalkEvent) (st : WalkState) : WalkState :=
  match ev with
  | Except.ok e => stepOk ignore_errors e st
  | Except.error err =>
    if ignore_errors then st
    else { st with stderrLines := st.stderrLines ++ [err] }

/-- The whole walk loop over a list of walker items. -/
def runWalk (ignore_errors : Bool) (events : List WalkEvent)
    (st : WalkState) : WalkState :=
  events.foldl (fun s ev => step ignore_errors ev s) st

/-- The loop of `main` runs over `walker.skip(1)` (main.rs line 55):
the first yielded item (the target directory itself) is dropped, and the
loop starts from the freshly initialised state. -/
def mainRun (ignore_errors : Bool) (dir : String)
    (events : List WalkEvent) : WalkState :=
  runWalk ignore_errors (events.drop 1) (initState dir)

/-- The body of the final `println!` (main.rs lines 131-140), without the
surrounding newlines: `"<dirs> directories, <files> files"` plus a
`", <symlinks> symlinks"` clause produced by the `if symlink_count > 0`
expression. -/
def summaryBody (dirs files symlinks : Nat) : String :=
  toString dirs ++ " directories, " ++ toString files ++ " files" ++
    (if symlinks > 0 then ", " ++ toString symlinks ++ " symlinks" else "")

/-- Everything `main` writes to standard output: the rendered tree
(produced by the external `ptree::print_tree`, abstracted as a string),
then the `println!` output, whose format string starts with `\n` (the
blank line) and which appends a final newline. -/
def mainStdout (treeRender : String) (dirs files symlinks : Nat) : String :=
  treeRender ++ "\n" ++ summaryBody dirs files symlinks ++ "\n"

/-- Model of `std::process::ExitCode` as returned by `main`. -/
inductive ExitCode where
  | SUCCESS
  | FAILURE
deriving DecidableEq, Repr

/-- The observable result of `main`: the final loop state (which fixes
the printed counts and stderr lines) and the exit code. -/
structure MainResult where
  state : WalkState
  exit : ExitCode
deriving Repr

/-- `main` (main.rs lines 34-143): run the walk loop, then return
`ExitCode::SUCCESS` unconditionally (line 142). -/
def main (ignore_errors : Bool) (dir : String)
    (events : List WalkEvent) : MainResult :=
  { state := mainRun ignore_errors dir events
    exit := ExitCode.SUCCESS }

/-- An entry is skipped by the loop body (`continue`) exactly when its
file type cannot be determined or it is a symlink whose target cannot be
read (main.rs lines 97 and 114). -/
def entrySkipped (e : DirEntry) : Bool :=
  match e.file_type with
  | none => true
  | some ft =>
    match fileTypeFrom ft, e.read_link with
    | FileType.symlink, Except.error _ => true
    | _, _ => false

end Treeeee

namespace Treeeee

lemma closeLevels_root (d : Nat) (st : WalkState) :
    (closeLevels d st).root = st.root := by
  unfold closeLevels; split <;> rfl

lemma closeLevels_files_count (d : Nat) (st : WalkState) :
    (closeLevels d st).files_count = st.files_count := by
  unfold closeLevels; split <;> rfl

lemma closeLevels_dirs_count (d : Nat) (st : WalkState) :
    (closeLevels d st).dirs_count = st.dirs_count := by
  unfold closeLevels; split <;> rfl

lemma closeLevels_symlink_count (d : Nat) (st : WalkState) :
    (closeLevels d st).symlink_count = st.symlink_count := by
  unfold closeLevels; split <;> rfl

lemma closeLevels_stderrLines (d : Nat) (st : WalkState) :
    (closeLevels d st).stderrLines = st.stderrLines := by
  unfold closeLevels; split <;> rfl

lemma closeLevels_treeOps_endOnly (d : Nat) (st : WalkState) :
    ∃ n, (closeLevels d st).treeOps = st.treeOps ++ List.replicate n TreeOp.endChild := by
  unfold closeLevels; split
  · exact ⟨_, rfl⟩
  · exact ⟨0, by simp⟩

/-- C1: every non-directory, non-skipped entry increments the files
counter; each symlink entry additionally increments the symlinks
counter; every directory entry increments the directories counter. -/
theorem counting_rules (ie : Bool) (e : DirEntry) (st : WalkState) (ft : FsFileType)
    (hft : e.file_type = some ft) (hns : entrySkipped e = false) :
    ((fileTypeFrom ft ≠ FileType.directory →
      (stepOk ie e st).files_count = st.files_count + 1) ∧
     (fileTypeFrom ft = FileType.symlink →
      (stepOk ie e st).symlink_count = st.symlink_count + 1) ∧
     (fileTypeFrom ft = FileType.directory →
      (stepOk ie e st).dirs_count = st.dirs_count + 1)) := by
  have hstep : stepOk ie e st = processType ie e (fileTypeFrom ft) (closeLevels e.depth st) := by
    simp [stepOk, hft]
  rcases hcase : fileTypeFrom ft with _ | _ | _ | _ <;> rw [hcase] at hstep <;> rw [hstep]
  case directory =>
    refine ⟨?_, ?_, ?_⟩
    · intro h; exact absurd rfl h
    · intro h; simp at h
    · intro _; simp [processType, closeLevels_dirs_count]
  case file =>
    refine ⟨?_, ?_, ?_⟩
    · intro _; simp [processType, closeLevels_files_count]
    · intro h; simp at h
    · intro h; simp at h
  case symlink =>
    rcases hrl : e.read_link with msg | target
    · exfalso
      have htrue : entrySkipped e = true := by
        simp [entrySkipped, hft, hcase, hrl]
      rw [hns] at htrue; cases htrue
    · refine ⟨?_, ?_, ?_⟩
      · intro _; simp [processType, hrl, closeLevels_files_count]
      · intro _; simp [processType, hrl, closeLevels_symlink_count]
      · intro h; simp at h
  case other =>
    refine ⟨?_, ?_, ?_⟩
    · intro _; simp [processType, closeLevels_files_count]
    · intro h; simp at h
    · intro h; simp at h

/-- C4: a symlink entry whose target cannot be read is reported to
standard error (unless `ignore_errors`), skipped from the tree (only
depth-closing `end_child` operations may be emitted), and increments
none of the three counters. -/
theorem symlink_error_skipped (ie : Bool) (e : DirEntry) (st : WalkState)
    (ft : FsFileType) (msg : String)
    (hft : e.file_type = some ft) (hsl : fileTypeFrom ft = FileType.symlink)
    (herr : e.read_link = Except.error msg) :
    ((∃ n, (stepOk ie e st).treeOps = st.treeOps ++ List.replicate n TreeOp.endChild) ∧
     (stepOk ie e st).files_count = st.files_count ∧
     (stepOk ie e st).symlink_count = st.symlink_count ∧
     (stepOk ie e st).dirs_count = st.dirs_count ∧
     (stepOk ie e st).stderrLines = st.stderrLines ++ (if ie then [] else [msg])) := by
  have hstep : stepOk ie e st =
      processType ie e FileType.symlink (closeLevels e.depth st) := by
    simp [stepOk, hft, hsl]
  rw [hstep]
  cases ie <;>
    simp [processType, herr, closeLevels_files_count, closeLevels_symlink_count,
      closeLevels_dirs_count, closeLevels_stderrLines] <;>
    exact closeLevels_treeOps_endOnly e.depth st

/-- C8: a symlink entry whose target is read successfully is rendered as
one tree line containing the (blue-coloured) link name and the
(cyan-coloured) target text, joined by " -> ". -/
theorem symlink_render (ie : Bool) (e : DirEntry) (st : WalkState)
    (ft : FsFileType) (target : String)
    (hft : e.file_type = some ft) (hsl : fileTypeFrom ft = FileType.symlink)
    (hok : e.read_link = Except.ok target) :
    ((stepOk ie e st).treeOps = (closeLevels e.depth st).treeOps ++
      [TreeOp.addEmptyChild (blueStr e.file_name ++ " -> " ++ cyanStr target)] ∧
     ∃ pre mid suf, blueStr e.file_name ++ " -> " ++ cyanStr target =
       pre ++ e.file_name ++ mid ++ target ++ suf ∧
       ∃ a b, mid = a ++ " -> " ++ b) := by
  have hstep : stepOk ie e st =
      processType ie e FileType.symlink (closeLevels e.depth st) := by
    simp [stepOk, hft, hsl]
  rw [hstep]
  constructor
  · simp [processType, hok]
  · refine ⟨"\x1b[" ++ "34" ++ "m", "\x1b[0m" ++ " -> " ++ ("\x1b[" ++ "36" ++ "m"),
      "\x1b[0m", ?_, "\x1b[0m", "\x1b[" ++ "36" ++ "m", rfl⟩
    simp [blueStr, cyanStr, colorFg, String.append_assoc]
    rfl

/-- C9: an entry whose file type cannot be determined is silently
skipped: apart from depth-closing `end_child` operations nothing is
added to the tree, no counter changes, and nothing is printed to
standard error regardless of the `ignore_errors` flag. -/
theorem missing_file_type_skipped (ie : Bool) (e : DirEntry) (st : WalkState)
    (h : e.file_type = none) :
    (step ie (Except.ok e) st = closeLevels e.depth st ∧
     (∃ n, (step ie (Except.ok e) st).treeOps = st.treeOps ++ List.replicate n TreeOp.endChild) ∧
     (step ie (Except.ok e) st).files_count = st.files_count ∧
     (step ie (Except.ok e) st).dirs_count = st.dirs_count ∧
     (step ie (Except.ok e) st).symlink_count = st.symlink_count ∧
     (step ie (Except.ok e) st).stderrLines = st.stderrLines) := by
  have hstep : step ie (Except.ok e) st = closeLevels e.depth st := by
    simp [step, stepOk, h]
  rw [hstep]
  exact ⟨rfl, closeLevels_treeOps_endOnly e.depth st, closeLevels_files_count _ _,
    closeLevels_dirs_count _ _, closeLevels_symlink_count _ _, closeLevels_stderrLines _ _⟩

end Treeeee

namespace Treeeee

/-- C6: whenever the walker reports a depth strictly below the open
depth, exactly that many `end_child` operations are emitted before the
entry is appended, and appending a directory raises the open depth by
exactly one over the post-closing depth. -/
theorem depth_bookkeeping (ie : Bool) (e : DirEntry) (st : WalkState) :
    ((e.depth < st.current_depth →
      (closeLevels e.depth st).treeOps =
        st.treeOps ++ List.replicate (st.current_depth - e.depth) TreeOp.endChild ∧
      (closeLevels e.depth st).current_depth = e.depth) ∧
     (∀ ft, e.file_type = some ft → fileTypeFrom ft = FileType.directory →
      (stepOk ie e st).current_depth = (closeLevels e.depth st).current_depth + 1 ∧
      (stepOk ie e st).treeOps =
        (closeLevels e.depth st).treeOps ++
          [TreeOp.beginChild (greenStr e.file_name ++ "/")])) := by
  constructor
  · intro h
    constructor <;> simp [closeLevels, h]
  · intro ft hft hdir
    have hstep : stepOk ie e st =
        processType ie e FileType.directory (closeLevels e.depth st) := by
      simp [stepOk, hft, hdir]
    rw [hstep]
    constructor <;> simp [processType]

/-- C7: the exit status is success for every configuration and every
sequence of walker events, including sequences containing errors. -/
theorem exit_code_success (ie : Bool) (dir : String) (events : List WalkEvent) :
    (Treeeee.main ie dir events).exit = ExitCode.SUCCESS := rfl

/-- The stderr lines one walker item contributes, as a function of the
item and the `ignore_errors` flag alone. -/
def stepLog (ie : Bool) (ev : WalkEvent) : List String :=
  if ie then []
  else
    match ev with
    | Except.error err => [err]
    | Except.ok e =>
      match e.file_type with
      | none => []
      | some ft =>
        match fileTypeFrom ft, e.read_link with
        | FileType.symlink, Except.error msg => [msg]
        | _, _ => []

/-- The stderr lines contributed by a list of walker items, in order. -/
def logsOf (ie : Bool) : List WalkEvent → List String
  | [] => []
  | ev :: evs => stepLog ie ev ++ logsOf ie evs

lemma logsOf_true (evs : List WalkEvent) : logsOf true evs = [] := by
  induction evs with
  | nil => rfl
  | cons ev evs ih => simp [logsOf, stepLog, ih]

lemma step_decomp (ie : Bool) (ev : WalkEvent) (st : WalkState) :
    step ie ev st =
      { step true ev st with stderrLines := st.stderrLines ++ stepLog ie ev } := by
  rcases ev with err | e
  · cases ie <;> ext <;> simp [step, stepLog]
  · cases ie
    case false =>
      rcases hft : e.file_type with _ | ft
      · simp [step, stepOk, hft, stepLog]
        ext <;> simp [closeLevels_stderrLines]
      · rcases hcase : fileTypeFrom ft with _ | _ | _ | _ <;>
          simp [step, stepOk, hft, hcase, stepLog, processType]
        case directory => ext <;> simp [closeLevels_stderrLines]
        case file => ext <;> simp [closeLevels_stderrLines]
        case symlink =>
          rcases hrl : e.read_link with msg | t <;> simp [hrl] <;>
            ext <;> simp [closeLevels_stderrLines]
        case other => ext <;> simp [closeLevels_stderrLines]
    case true =>
      simp [stepLog]
      ext <;> simp
      rcases hft : e.file_type with _ | ft
      · simp [step, stepOk, hft, closeLevels_stderrLines]
      · rcases hcase : fileTypeFrom ft with _ | _ | _ | _ <;>
          simp [step, stepOk, hft, hcase, processType, closeLevels_stderrLines]
        rcases hrl : e.read_link with msg | t <;>
          simp [hrl, closeLevels_stderrLines]

lemma runWalk_cons (ie : Bool) (ev : WalkEvent) (evs : List WalkEvent) (st : WalkState) :
    runWalk ie (ev :: evs) st = runWalk ie evs (step ie ev st) := rfl

lemma closeLevels_stderr_set (d : Nat) (st : WalkState) (l : List String) :
    closeLevels d { st with stderrLines := l } =
      { closeLevels d st with stderrLines := l } := by
  by_cases h : d < st.current_depth <;> ext <;> simp [closeLevels, h]

lemma processType_true_stderr_set (e : DirEntry) (ft : FileType) (st : WalkState)
    (l : List String) :
    processType true e ft { st with stderrLines := l } =
      { processType true e ft st with stderrLines := l } := by
  rcases ft with _ | _ | _ | _
  · ext <;> simp [processType]
  · ext <;> simp [processType]
  · rcases hrl : e.read_link with msg | t <;> ext <;> simp [processType, hrl]
  · ext <;> simp [processType]

lemma step_true_stderr_set (ev : WalkEvent) (st : WalkState) (l : List String) :
    step true ev { st with stderrLines := l } =
      { step true ev st with stderrLines := l } := by
  rcases ev with err | e
  · simp [step]
  · rcases hft : e.file_type with _ | ft
    · simp [step, stepOk, hft, closeLevels_stderr_set]
    · simp [step, stepOk, hft, closeLevels_stderr_set, processType_true_stderr_set]

lemma runWalk_true_stderr_set (evs : List WalkEvent) (st : WalkState) (l : List String) :
    runWalk true evs { st with stderrLines := l } =
      { runWalk true evs st with stderrLines := l } := by
  induction evs generalizing st with
  | nil => simp [runWalk]
  | cons ev evs ih =>
    rw [runWalk_cons, runWalk_cons, step_true_stderr_set, ih]

lemma runWalk_decomp (ie : Bool) (evs : List WalkEvent) (st : WalkState) :
    runWalk ie evs st =
      { runWalk true evs st with stderrLines := st.stderrLines ++ logsOf ie evs } := by
  induction evs generalizing st with
  | nil =>
    simp [runWalk, logsOf]
  | cons ev evs ih =>
    rw [runWalk_cons, runWalk_cons, ih, step_decomp, runWalk_true_stderr_set]
    ext <;> simp [logsOf]

/-- C5: the three counts (and the built tree) are identical whether
errors are suppressed or not; with `ignore_errors` set the walk loop
prints nothing to standard error, and without it the stderr lines are
exactly the per-event error logs (so erroneous entries are skipped
either way). -/
theorem ignore_errors_noninterference (dir : String) (events : List WalkEvent) :
    ((mainRun true dir events).dirs_count = (mainRun false dir events).dirs_count ∧
     (mainRun true dir events).files_count = (mainRun false dir events).files_count ∧
     (mainRun true dir events).symlink_count = (mainRun false dir events).symlink_count) ∧
    (mainRun true dir events).treeOps = (mainRun false dir events).treeOps ∧
    (mainRun true dir events).stderrLines = [] ∧
    (mainRun false dir events).stderrLines = logsOf false (events.drop 1) := by
  have hT := runWalk_decomp true (events.drop 1) (initState dir)
  have hF := runWalk_decomp false (events.drop 1) (initState dir)
  unfold mainRun
  rw [hT, hF]
  simp [initState, logsOf_true]

/-- The shape of `std::fs::FileType` for a regular file: not a
directory, a file, not a symlink. -/
def regularFile : FsFileType := ⟨false, true, false⟩

lemma runWalk_regular_files (ie : Bool) (es : List DirEntry) (st : WalkState)
    (hreg : ∀ e ∈ es, e.file_type = some regularFile) :
    (runWalk ie (es.map Except.ok) st).dirs_count = st.dirs_count ∧
    (runWalk ie (es.map Except.ok) st).files_count = st.files_count + es.length ∧
    (runWalk ie (es.map Except.ok) st).symlink_count = st.symlink_count := by
  induction es generalizing st with
  | nil => simp [runWalk]
  | cons e es ih =>
    have hft : e.file_type = some regularFile := hreg e (List.mem_cons_self e es)
    have hmatch : fileTypeFrom regularFile = FileType.file := rfl
    have hstep : step ie (Except.ok e) st =
        processType ie e FileType.file (closeLevels e.depth st) := by
      simp [step, stepOk, hft, hmatch]
    rw [List.map_cons, runWalk_cons, hstep]
    obtain ⟨h1, h2, h3⟩ :=
      ih (processType ie e FileType.file (closeLevels e.depth st))
        (fun e' he' => hreg e' (List.mem_cons_of_mem _ he'))
    refine ⟨?_, ?_, ?_⟩
    · rw [h1]; simp [processType, closeLevels_dirs_count]
    · rw [h2]; simp [processType, closeLevels_files_count]; omega
    · rw [h3]; simp [processType, closeLevels_symlink_count]

/-- C2: for a target directory whose walk yields, after the target
itself, exactly the entries of `es`, all regular files, the final counts
are 0 directories, `es.length` files, 0 symlinks, and the summary text
is "0 directories, N files" (in particular, the clause for symlinks is
absent and the target directory is not counted). -/
theorem flat_directory_summary (ie : Bool) (dir : String) (root : WalkEvent)
    (es : List DirEntry) (hreg : ∀ e ∈ es, e.file_type = some regularFile) :
    ((mainRun ie dir (root :: es.map Except.ok)).dirs_count = 0 ∧
     (mainRun ie dir (root :: es.map Except.ok)).files_count = es.length ∧
     (mainRun ie dir (root :: es.map Except.ok)).symlink_count = 0 ∧
     summaryBody (mainRun ie dir (root :: es.map Except.ok)).dirs_count
       (mainRun ie dir (root :: es.map Except.ok)).files_count
       (mainRun ie dir (root :: es.map Except.ok)).symlink_count =
       "0 directories, " ++ toString es.length ++ " files") := by
  have hmain : mainRun ie dir (root :: es.map Except.ok) =
      runWalk ie (es.map Except.ok) (initState dir) := rfl
  obtain ⟨h1, h2, h3⟩ := runWalk_regular_files ie es (initState dir) hreg
  have h2' : (runWalk ie (es.map Except.ok) (initState dir)).files_count = es.length := by
    rw [h2]; simp [initState]
  obtain ⟨hd, hs⟩ : (initState dir).dirs_count = 0 ∧ (initState dir).symlink_count = 0 :=
    ⟨rfl, rfl⟩
  rw [hmain, h1, h2', h3, hd, hs]
  refine ⟨rfl, rfl, rfl, ?_⟩
  simp [summaryBody, String.append_empty]
  rfl

/-- C3: standard output is the tree listing, a blank line, then the
summary line; the symlink clause appears in the summary exactly when the
symlink count is positive. -/
theorem stdout_summary_format (tr : String) (d f k : Nat) :
    (mainStdout tr d f k = tr ++ "\n" ++ summaryBody d f k ++ "\n" ∧
     (0 < k → summaryBody d f k =
       (toString d ++ " directories, " ++ toString f ++ " files") ++
         (", " ++ toString k ++ " symlinks")) ∧
     (k = 0 → summaryBody d f k =
       toString d ++ " directories, " ++ toString f ++ " files") ∧
     ((summaryBody d f k ≠
       toString d ++ " directories, " ++ toString f ++ " files") ↔ 0 < k)) := by
  refine ⟨rfl, ?_, ?_, ?_, ?_⟩
  · intro hk
    simp [summaryBody, hk]
  · intro hk
    subst hk
    simp [summaryBody, String.append_empty]
  · intro hne
    by_contra hk
    have hk0 : k = 0 := by omega
    subst hk0
    exact hne (by simp [summaryBody, String.append_empty])
  · intro hk hEq
    have hlen := congrArg String.length hEq
    simp only [summaryBody, hk, if_pos, String.length_append] at hlen
    have h9 : (" symlinks" : String).length = 9 := rfl
    have h2 : (", " : String).length = 2 := rfl
    omega

lemma step_symlink_le_files (ie : Bool) (ev : WalkEvent) (st : WalkState)
    (h : st.symlink_count ≤ st.files_count) :
    (step ie ev st).symlink_count ≤ (step ie ev st).files_count := by
  rcases ev with err | e
  · cases ie <;> simpa [step] using h
  · rcases hft : e.file_type with _ | ft
    · simpa [step, stepOk, hft, closeLevels_symlink_count, closeLevels_files_count] using h
    · rcases hcase : fileTypeFrom ft with _ | _ | _ | _ <;>
        simp [step, stepOk, hft, hcase, processType, closeLevels_symlink_count,
          closeLevels_files_count]
      · exact h
      · omega
      · rcases hrl : e.read_link with msg | t
        · cases ie <;>
            simp [hrl, closeLevels_symlink_count, closeLevels_files_count] <;> exact h
        · simp [hrl, closeLevels_symlink_count, closeLevels_files_count]; omega
      · omega

lemma runWalk_symlink_le_files (ie : Bool) (evs : List WalkEvent) (st : WalkState)
    (h : st.symlink_count ≤ st.files_count) :
    (runWalk ie evs st).symlink_count ≤ (runWalk ie evs st).files_count := by
  induction evs generalizing st with
  | nil => simpa [runWalk] using h
  | cons ev evs ih =>
    rw [runWalk_cons]
    exact ih (step ie ev st) (step_symlink_le_files ie ev st h)

/-- C10: after any prefix of the loop's events, and in the final state,
the symlinks counter never exceeds the files counter. -/
theorem symlink_le_files_invariant (ie : Bool) (dir : String)
    (events : List WalkEvent) (n : Nat) :
    ((runWalk ie ((events.drop 1).take n) (initState dir)).symlink_count ≤
      (runWalk ie ((events.drop 1).take n) (initState dir)).files_count ∧
     (mainRun ie dir events).symlink_count ≤ (mainRun ie dir events).files_count) :=
  ⟨runWalk_symlink_le_files ie ((events.drop 1).take n) (initState dir) (Nat.le_refl 0),
   runWalk_symlink_le_files ie (events.drop 1) (initState dir) (Nat.le_refl 0)⟩

/-- Witness for `counting_rules`: a plain regular-file entry. -/
theorem counting_rules_witness :
    ((fileTypeFrom (FsFileType.mk false true false) ≠ FileType.directory →
      (stepOk false (DirEntry.mk 1 (some (FsFileType.mk false true false)) "a" (Except.ok "t"))
        (initState "d")).files_count = (initState "d").files_count + 1) ∧
     (fileTypeFrom (FsFileType.mk false true false) = FileType.symlink →
      (stepOk false (DirEntry.mk 1 (some (FsFileType.mk false true false)) "a" (Except.ok "t"))
        (initState "d")).symlink_count = (initState "d").symlink_count + 1) ∧
     (fileTypeFrom (FsFileType.mk false true false) = FileType.directory →
      (stepOk false (DirEntry.mk 1 (some (FsFileType.mk false true false)) "a" (Except.ok "t"))
        (initState "d")).dirs_count = (initState "d").dirs_count + 1)) :=
  counting_rules false
    (DirEntry.mk 1 (some (FsFileType.mk false true false)) "a" (Except.ok "t"))
    (initState "d") (FsFileType.mk false true false) rfl rfl

/-- Witness for `flat_directory_summary`: one regular file behind the
target directory. -/
theorem flat_directory_summary_witness :
    ((mainRun false "d" (Except.error "r" ::
        [DirEntry.mk 1 (some regularFile) "a" (Except.ok "")].map Except.ok)).dirs_count = 0 ∧
     (mainRun false "d" (Except.error "r" ::
        [DirEntry.mk 1 (some regularFile) "a" (Except.ok "")].map Except.ok)).files_count =
       [DirEntry.mk 1 (some regularFile) "a" (Except.ok "")].length ∧
     (mainRun false "d" (Except.error "r" ::
        [DirEntry.mk 1 (some regularFile) "a" (Except.ok "")].map Except.ok)).symlink_count = 0 ∧
     summaryBody
       (mainRun false "d" (Except.error "r" ::
          [DirEntry.mk 1 (some regularFile) "a" (Except.ok "")].map Except.ok)).dirs_count
       (mainRun false "d" (Except.error "r" ::
          [DirEntry.mk 1 (some regularFile) "a" (Except.ok "")].map Except.ok)).files_count
       (mainRun false "d" (Except.error "r" ::
          [DirEntry.mk 1 (some regularFile) "a" (Except.ok "")].map Except.ok)).symlink_count =
       "0 directories, " ++
         toString [DirEntry.mk 1 (some regularFile) "a" (Except.ok "")].length ++ " files") :=
  flat_directory_summary false "d" (Except.error "r")
    [DirEntry.mk 1 (some regularFile) "a" (Except.ok "")] (by decide)

/-- Witness for `stdout_summary_format` at concrete counts. -/
theorem stdout_summary_format_witness :
    (mainStdout "root" 1 2 3 = "root" ++ "\n" ++ summaryBody 1 2 3 ++ "\n" ∧
     (0 < 3 → summaryBody 1 2 3 =
       (toString 1 ++ " directories, " ++ toString 2 ++ " files") ++
         (", " ++ toString 3 ++ " symlinks")) ∧
     (3 = 0 → summaryBody 1 2 3 =
       toString 1 ++ " directories, " ++ toString 2 ++ " files") ∧
     ((summaryBody 1 2 3 ≠
       toString 1 ++ " directories, " ++ toString 2 ++ " files") ↔ 0 < 3)) :=
  stdout_summary_format "root" 1 2 3

/-- Witness for `symlink_error_skipped`: an unreadable symlink entry. -/
theorem symlink_error_skipped_witness :
    ((∃ n, (stepOk false (DirEntry.mk 1 (some (FsFileType.mk false false true)) "l"
        (Except.error "boom")) (initState "d")).treeOps =
        (initState "d").treeOps ++ List.replicate n TreeOp.endChild) ∧
     (stepOk false (DirEntry.mk 1 (some (FsFileType.mk false false true)) "l"
        (Except.error "boom")) (initState "d")).files_count = (initState "d").files_count ∧
     (stepOk false (DirEntry.mk 1 (some (FsFileType.mk false false true)) "l"
        (Except.error "boom")) (initState "d")).symlink_count = (initState "d").symlink_count ∧
     (stepOk false (DirEntry.mk 1 (some (FsFileType.mk false false true)) "l"
        (Except.error "boom")) (initState "d")).dirs_count = (initState "d").dirs_count ∧
     (stepOk false (DirEntry.mk 1 (some (FsFileType.mk false false true)) "l"
        (Except.error "boom")) (initState "d")).stderrLines =
       (initState "d").stderrLines ++ (if false then [] else ["boom"])) :=
  symlink_error_skipped false
    (DirEntry.mk 1 (some (FsFileType.mk false false true)) "l" (Except.error "boom"))
    (initState "d") (FsFileType.mk false false true) "boom" rfl rfl rfl

/-- Witness for `depth_bookkeeping`: an entry two levels up and a
directory entry. -/
theorem depth_bookkeeping_witness :
    ((1 < (WalkState.mk "d" [] 2 0 0 0 []).current_depth →
      (closeLevels 1 (WalkState.mk "d" [] 2 0 0 0 [])).treeOps =
        (WalkState.mk "d" [] 2 0 0 0 []).treeOps ++
          List.replicate ((WalkState.mk "d" [] 2 0 0 0 []).current_depth - 1) TreeOp.endChild ∧
      (closeLevels 1 (WalkState.mk "d" [] 2 0 0 0 [])).current_depth = 1) ∧
     (∀ ft, (DirEntry.mk 1 (some (FsFileType.mk true false false)) "sub"
         (Except.ok "")).file_type = some ft →
      fileTypeFrom ft = FileType.directory →
      (stepOk false (DirEntry.mk 1 (some (FsFileType.mk true false false)) "sub"
         (Except.ok "")) (WalkState.mk "d" [] 2 0 0 0 [])).current_depth =
        (closeLevels 1 (WalkState.mk "d" [] 2 0 0 0 [])).current_depth + 1 ∧
      (stepOk false (DirEntry.mk 1 (some (FsFileType.mk true false false)) "sub"
         (Except.ok "")) (WalkState.mk "d" [] 2 0 0 0 [])).treeOps =
        (closeLevels 1 (WalkState.mk "d" [] 2 0 0 0 [])).treeOps ++
          [TreeOp.beginChild (greenStr "sub" ++ "/")])) :=
  depth_bookkeeping false
    (DirEntry.mk 1 (some (FsFileType.mk true false false)) "sub" (Except.ok ""))
    (WalkState.mk "d" [] 2 0 0 0 [])

/-- Witness for `symlink_render`: a readable symlink entry. -/
theorem symlink_render_witness :
    ((stepOk false (DirEntry.mk 1 (some (FsFileType.mk false false true)) "l"
        (Except.ok "tgt")) (initState "d")).treeOps =
      (closeLevels 1 (initState "d")).treeOps ++
        [TreeOp.addEmptyChild (blueStr "l" ++ " -> " ++ cyanStr "tgt")] ∧
     ∃ pre mid suf, blueStr "l" ++ " -> " ++ cyanStr "tgt" =
       pre ++ "l" ++ mid ++ "tgt" ++ suf ∧
       ∃ a b, mid = a ++ " -> " ++ b) :=
  symlink_render false
    (DirEntry.mk 1 (some (FsFileType.mk false false true)) "l" (Except.ok "tgt"))
    (initState "d") (FsFileType.mk false false true) "tgt" rfl rfl rfl

/-- Witness for `missing_file_type_skipped`: an entry with no file type. -/
theorem missing_file_type_skipped_witness :
    (step false (Except.ok (DirEntry.mk 1 none "x" (Except.ok ""))) (initState "d") =
       closeLevels 1 (initState "d") ∧
     (∃ n, (step false (Except.ok (DirEntry.mk 1 none "x" (Except.ok "")))
        (initState "d")).treeOps = (initState "d").treeOps ++ List.replicate n TreeOp.endChild) ∧
     (step false (Except.ok (DirEntry.mk 1 none "x" (Except.ok "")))
        (initState "d")).files_count = (initState "d").files_count ∧
     (step false (Except.ok (DirEntry.mk 1 none "x" (Except.ok "")))
        (initState "d")).dirs_count = (initState "d").dirs_count ∧
     (step false (Except.ok (DirEntry.mk 1 none "x" (Except.ok "")))
        (initState "d")).symlink_count = (initState "d").symlink_count ∧
     (step false (Except.ok (DirEntry.mk 1 none "x" (Except.ok "")))
        (initState "d")).stderrLines = (initState "d").stderrLines) :=
  missing_file_type_skipped false (DirEntry.mk 1 none "x" (Except.ok "")) (initState "d") rfl

end Treeeee
